import Mathlib

/-!
Verification development for the decentralized security protocol prototype.

The Python modules are shallowly embedded as Lean definitions:

* `network/consensus.py`   → `DSP.Consensus` and its vote evaluation;
* `agents/base_agent.py`   → `DSP.update_reputation` and the VOTE branch of
  `receive_message` (`DSP.handle_vote`);
* `rules/rule_engine.py`   → `DSP.RuleEngine`;
* `network/gossip_protocol.py` → `DSP.GossipProtocol`.

Modelling conventions: Python dicts become association lists with
overwrite-in-place store (`alistInsert`), preserving dict key uniqueness and
insertion order; Python floats (timestamps, ratios, the literal 0.67) become
rationals; `time.time()` becomes an explicit `now : ℚ` parameter; the random
delivery draw of the gossip layer becomes an explicit boolean parameter; side
effects (prints, logging) are dropped and mutation becomes state passing.
-/

namespace DSP

/-- Association-list lookup, mirroring Python dict access (`d.get(k)`,
`k in d`). -/
def alistLookup {α : Type} (k : String) : List (String × α) → Option α
  | [] => none
  | (k₁, v) :: rest => if k₁ = k then some v else alistLookup k rest

/-- Association-list store, mirroring Python `d[k] = v`: overwrites an
existing binding in place, otherwise appends a new binding at the end. -/
def alistInsert {α : Type} (k : String) (v : α) : List (String × α) → List (String × α)
  | [] => [(k, v)]
  | (k₁, v₁) :: rest =>
      if k₁ = k then (k₁, v) :: rest else (k₁, v₁) :: alistInsert k v rest

/-- Association-list removal, mirroring Python `del d[k]`. -/
def alistErase {α : Type} (k : String) : List (String × α) → List (String × α)
  | [] => []
  | (k₁, v₁) :: rest => if k₁ = k then rest else (k₁, v₁) :: alistErase k rest

theorem alistLookup_alistInsert_self {α : Type} (k : String) (v : α)
    (l : List (String × α)) : alistLookup k (alistInsert k v l) = some v := by
  induction l with
  | nil => simp [alistInsert, alistLookup]
  | cons hd tl ih =>
    by_cases h : hd.1 = k
    · simp [alistInsert, alistLookup, h]
    · simp [alistInsert, alistLookup, h, ih]

/-! ## Consensus (`network/consensus.py`)

One registered vote, as stored by `Consensus.register_vote`: the agent's
choice (the string "APPROVE" or "REJECT") and the reputation recorded with
it (Python defaults it to 50 when `None` is passed). -/

structure VoteRecord where
  vote : String
  reputation : Int
  deriving Repr, DecidableEq

/-- State of `class Consensus`: the consensus type string and the two dicts
`votes : rule_id -> (agent_id -> vote record)` and
`rule_status : rule_id -> status`. -/
structure Consensus where
  consensus_type : String
  votes : List (String × List (String × VoteRecord))
  rule_status : List (String × String)
  deriving Repr, DecidableEq

/-- `Consensus.__init__` (default consensus type "MAJORITY"). -/
def Consensus.init (consensus_type : String := "MAJORITY") : Consensus :=
  { consensus_type := consensus_type, votes := [], rule_status := [] }

/-- `Consensus.register_vote`: creates the rule entry (status "VOTING") on
first vote, then stores the agent's vote, overwriting any prior vote from
the same agent. -/
def Consensus.register_vote (c : Consensus) (rule_id agent_id vote : String)
    (reputation : Option Int := none) : Consensus :=
  let c₁ :=
    match alistLookup rule_id c.votes with
    | some _ => c
    | none =>
        { c with votes := alistInsert rule_id [] c.votes,
                 rule_status := alistInsert rule_id "VOTING" c.rule_status }
  let entry : VoteRecord := { vote := vote, reputation := reputation.getD 50 }
  let rv := (alistLookup rule_id c₁.votes).getD []
  { c₁ with votes := alistInsert rule_id (alistInsert agent_id entry rv) c₁.votes }

/-- Python `sum(1 for v in votes.values() if v["vote"] == "APPROVE")`. -/
def approveCount (votes : List (String × VoteRecord)) : Nat :=
  (votes.filter (fun v => v.2.vote = "APPROVE")).length

/-- Python `sum(v["reputation"] for v in votes.values())`. -/
def totalWeight (votes : List (String × VoteRecord)) : Int :=
  ((votes.map (fun v => v.2.reputation))).sum

/-- Python `sum(v["reputation"] for v in votes.values() if v["vote"] == "APPROVE")`. -/
def approveWeight (votes : List (String × VoteRecord)) : Int :=
  (((votes.filter (fun v => v.2.vote = "APPROVE")).map (fun v => v.2.reputation))).sum

/-- `Consensus._check_majority_consensus`: approve fraction of the cast
votes, decided against the strict threshold 0.5. -/
def Consensus.check_majority (c : Consensus) (rule_id : String)
    (votes : List (String × VoteRecord)) : (String × ℚ) × Consensus :=
  let consensus_ratio : ℚ := (approveCount votes : ℚ) / (votes.length : ℚ)
  let status := if consensus_ratio > 1/2 then "APPROVED" else "REJECTED"
  ((status, consensus_ratio),
   { c with rule_status := alistInsert rule_id status c.rule_status })

/-- `Consensus._check_unanimous_consensus`. -/
def Consensus.check_unanimous (c : Consensus) (rule_id : String)
    (votes : List (String × VoteRecord)) : (String × ℚ) × Consensus :=
  let consensus_ratio : ℚ := (approveCount votes : ℚ) / (votes.length : ℚ)
  let status := if consensus_ratio = 1 then "APPROVED" else "REJECTED"
  ((status, consensus_ratio),
   { c with rule_status := alistInsert rule_id status c.rule_status })

/-- `Consensus._check_weighted_consensus`: reputation-weighted approve
fraction; the ratio is 0 when the total weight is not positive. -/
def Consensus.check_weighted (c : Consensus) (rule_id : String)
    (votes : List (String × VoteRecord)) : (String × ℚ) × Consensus :=
  let total_weight := totalWeight votes
  let approve_weight := approveWeight votes
  let consensus_ratio : ℚ :=
    if total_weight > 0 then (approve_weight : ℚ) / (total_weight : ℚ) else 0
  let status := if consensus_ratio > 1/2 then "APPROVED" else "REJECTED"
  ((status, consensus_ratio),
   { c with rule_status := alistInsert rule_id status c.rule_status })

/-- `Consensus.check_consensus`: "PENDING" for an unknown rule; below the
quorum threshold (`len(votes) >= total_agents * 0.67`, the float literal
0.67 modelled as the rational 67/100) returns "VOTING" with the
participation ratio; at quorum dispatches on the consensus type, falling
through to "VOTING" for an unrecognized type, exactly as the Python
control flow does. -/
def Consensus.check_consensus (c : Consensus) (rule_id : String)
    (total_agents : Nat) : (String × ℚ) × Consensus :=
  match alistLookup rule_id c.votes with
  | none => (("PENDING", 0), c)
  | some votes =>
      if (votes.length : ℚ) ≥ (total_agents : ℚ) * (67/100) then
        if c.consensus_type = "MAJORITY" then c.check_majority rule_id votes
        else if c.consensus_type = "UNANIMOUS" then c.check_unanimous rule_id votes
        else if c.consensus_type = "WEIGHTED" then c.check_weighted rule_id votes
        else (("VOTING", (votes.length : ℚ) / (total_agents : ℚ)), c)
      else (("VOTING", (votes.length : ℚ) / (total_agents : ℚ)), c)

/-- `Consensus.get_rule_status`. -/
def Consensus.get_rule_status (c : Consensus) (rule_id : String) : String :=
  (alistLookup rule_id c.rule_status).getD "UNKNOWN"

example :
    ((Consensus.init).register_vote "r1" "A" "APPROVE"
      |>.register_vote "r1" "B" "APPROVE"
      |>.register_vote "r1" "C" "REJECT"
      |>.check_consensus "r1" 3).1 = ("APPROVED", 2/3) := by
  simp [Consensus.init, Consensus.register_vote, Consensus.check_consensus,
    Consensus.check_majority, approveCount, alistLookup, alistInsert]
  norm_num

/-! ## Agent-side state (`agents/base_agent.py`)

The parts of `BaseAgent` that the claims are about: the reputation table
with `update_reputation`, and the VOTE branch of `receive_message` together
with the dict-argument path of `BaseAgent.apply_rule` that it invokes. -/

/-- A VOTE message content as built by `vote_for_rule` (its float timestamp
is not consulted by the vote-handling logic and is omitted). -/
structure VoteMsg where
  rule_id : String
  vote : String
  voter : String
  deriving Repr, DecidableEq

/-- A rule dict as held in `BaseAgent.proposed_rules`, restricted to the
keys the vote-handling logic reads: `id`, `status`, and `votes` (the
`votes` key is absent until the first vote arrives, hence `Option`). -/
structure AgentRule where
  id : String
  status : String
  votes : Option (List VoteMsg)
  deriving Repr, DecidableEq

/-- The agent state read and written by the VOTE branch: the registry of
known agents (only its size is consulted), the proposed-rules dict, and
the list of applied rules (`self.rules`). -/
structure AgentState where
  known_agents : List String
  proposed_rules : List (String × AgentRule)
  rules : List AgentRule
  deriving Repr, DecidableEq

/-- `BaseAgent.apply_rule` on a rule dict argument: appends to
`self.rules` and reports success when the status is "APPROVED", otherwise
reports failure and changes nothing. -/
def applyRuleDict (a : AgentState) (rule : AgentRule) : Bool × AgentState :=
  if rule.status = "APPROVED" then (true, { a with rules := a.rules ++ [rule] })
  else (false, a)

/-- The VOTE branch of `BaseAgent.receive_message` (the message content is
a vote `v`): for a known rule the vote is appended unconditionally; once
the accumulated votes reach half of the known agents, the status is
recomputed: "APPROVED" when approvals exceed half of the votes (the rule
is then also applied), "REJECTED" otherwise. An unknown rule id leaves the
state unchanged. -/
def handle_vote (a : AgentState) (v : VoteMsg) : AgentState :=
  match alistLookup v.rule_id a.proposed_rules with
  | none => a
  | some rule =>
      let votes := (rule.votes.getD []) ++ [v]
      if (votes.length : ℚ) ≥ (a.known_agents.length : ℚ) / 2 then
        let approvals := (votes.filter (fun w => w.vote = "APPROVE")).length
        if (approvals : ℚ) > (votes.length : ℚ) / 2 then
          let rule₁ : AgentRule := { rule with votes := some votes, status := "APPROVED" }
          let a₁ := { a with
            proposed_rules := alistInsert v.rule_id rule₁ a.proposed_rules }
          (applyRuleDict a₁ rule₁).2
        else
          let rule₂ : AgentRule := { rule with votes := some votes, status := "REJECTED" }
          { a with proposed_rules := alistInsert v.rule_id rule₂ a.proposed_rules }
      else
        let rule₃ : AgentRule := { rule with votes := some votes }
        { a with proposed_rules := alistInsert v.rule_id rule₃ a.proposed_rules }

/-- `BaseAgent.update_reputation` acting on the reputation dict: inserts
the default 50 when the agent is absent, adds the delta, and clamps the
result to [0, 100]. -/
def update_reputation (rep : List (String × Int)) (agent_id : String)
    (change : Int) : List (String × Int) :=
  let rep₁ :=
    match alistLookup agent_id rep with
    | some _ => rep
    | none => alistInsert agent_id 50 rep
  let old := (alistLookup agent_id rep₁).getD 50
  alistInsert agent_id (max 0 (min 100 (old + change))) rep₁

/-! ## Rule engine (`rules/rule_engine.py`) -/

/-- The `rule["data"]` keys read by the engine: `target`, `action` and
`duration` are all read with `.get`, hence `Option` (the numeric duration
in seconds is modelled as a rational). -/
structure RuleData where
  target : Option String
  action : Option String
  duration : Option ℚ
  deriving Repr, DecidableEq

/-- A rule dict as registered with the engine: `rule["id"]` is a mandatory
key, `rule.get("status")` may be absent. -/
structure EngineRule where
  id : String
  status : Option String
  data : RuleData
  deriving Repr, DecidableEq

/-- State of `class RuleEngine`: the rules dict and the
`active_rules : rule_id -> expiration_time` dict. The `rule_actions`
dispatch table has the fixed keys ALERT, BLOCK, ISOLATE, SCAN, each bound
to a handler that prints and returns `True`; it is modelled by
`supportedActions`. -/
structure RuleEngine where
  rules : List (String × EngineRule)
  active_rules : List (String × ℚ)
  deriving Repr, DecidableEq

/-- `RuleEngine.__init__`. -/
def RuleEngine.init : RuleEngine := { rules := [], active_rules := [] }

/-- Keys of the `rule_actions` dispatch dict. -/
def supportedActions : List String := ["ALERT", "BLOCK", "ISOLATE", "SCAN"]

/-- `RuleEngine.register_rule`. -/
def RuleEngine.register_rule (e : RuleEngine) (rule : EngineRule) : RuleEngine :=
  { e with rules := alistInsert rule.id rule e.rules }

/-- `RuleEngine.apply_rule`: fails on an unknown rule id, on a status
other than "APPROVED", and on an action kind outside the dispatch table;
otherwise the handler runs (returning `True`) and the rule becomes active
until `now + duration` (duration defaulting to 3600). The target is
resolved from the rule when not supplied, but the handlers only print it,
so it does not affect the state. `time.time()` is the explicit `now`. -/
def RuleEngine.apply_rule (e : RuleEngine) (now : ℚ) (rule_id : String)
    (target : Option String := none) : Bool × RuleEngine :=
  match alistLookup rule_id e.rules with
  | none => (false, e)
  | some rule =>
      if rule.status ≠ some "APPROVED" then (false, e)
      else
        let _resolved_target := target.orElse (fun _ => rule.data.target)
        let action_type := rule.data.action.getD "ALERT"
        if action_type ∈ supportedActions then
          let duration := rule.data.duration.getD 3600
          (true, { e with active_rules := alistInsert rule_id (now + duration) e.active_rules })
        else (false, e)

/-- `RuleEngine._cleanup_expired_rules`: deletes every active entry with
`expiration < current_time`. -/
def RuleEngine.cleanup_expired_rules (e : RuleEngine) (now : ℚ) : RuleEngine :=
  { e with active_rules := e.active_rules.filter (fun p => ¬ (p.2 < now)) }

/-- `RuleEngine.check_rule_applicability`: purges expired entries, then
returns the still-active rules whose data target equals the given target
(the `event` argument is unused by the code). Active rule ids are looked
up in the rules dict; `apply_rule` only ever activates registered ids. -/
def RuleEngine.check_rule_applicability (e : RuleEngine) (now : ℚ)
    (_event : String) (target : Option String) : List EngineRule × RuleEngine :=
  let e₁ := e.cleanup_expired_rules now
  let applicable := e₁.active_rules.filterMap (fun p =>
    match alistLookup p.1 e₁.rules with
    | some rule => if rule.data.target = target then some rule else none
    | none => none)
  (applicable, e₁)

/-! ## Gossip dissemination (`network/gossip_protocol.py`)

Only the fields the dissemination logic consults are modelled: the
registered agent ids, the dedup cache `message_id -> (message, cached-at)`
and the statistics counters. Fan-out is modelled by the list of
`(agent_id, message)` delivery events an operation produces — one event
per `agent.receive_message(...)` call. -/

/-- A message as seen by the disseminator (`network/message.py`): the
dissemination logic reads only `sender_id`, `msg_type` and `message_id`;
content, timestamp and signature are opaque payload here. -/
structure GMessage where
  sender_id : String
  msg_type : String
  message_id : String
  deriving Repr, DecidableEq

/-- State of `class GossipProtocol` relevant to the claims. -/
structure GossipProtocol where
  agents : List String
  message_cache : List (String × GMessage × ℚ)
  messages_sent : Nat
  messages_received : Nat
  delivery_failures : Nat
  deriving Repr, DecidableEq

/-- `GossipProtocol.process_remote_message`: a message whose id is already
cached is dropped with no state change and no deliveries; otherwise it is
cached, counted, and fanned out to every registered agent. -/
def GossipProtocol.process_remote_message (g : GossipProtocol) (now : ℚ)
    (message : GMessage) : GossipProtocol × List (String × GMessage) :=
  if (alistLookup message.message_id g.message_cache).isSome then (g, [])
  else
    let g₁ := { g with
      message_cache := alistInsert message.message_id (message, now) g.message_cache,
      messages_received := g.messages_received + 1 }
    (g₁, g.agents.map (fun a => (a, message)))

/-- `GossipProtocol.send_message`: caches the message id first, then fails
without sending when the recipient is unregistered; otherwise counts the
send and delivers subject to the random reliability draw, which is the
explicit `delivered` parameter (the exception branch around
`receive_message` is folded into the failure case). -/
def GossipProtocol.send_message (g : GossipProtocol) (now : ℚ)
    (message : GMessage) (recipient_id : String) (delivered : Bool) :
    Bool × GossipProtocol × List (String × GMessage) :=
  let g₁ := { g with
    message_cache := alistInsert message.message_id (message, now) g.message_cache }
  if recipient_id ∉ g₁.agents then (false, g₁, [])
  else
    let g₂ := { g₁ with messages_sent := g₁.messages_sent + 1 }
    if delivered then (true, g₂, [(recipient_id, message)])
    else (false, { g₂ with delivery_failures := g₂.delivery_failures + 1 }, [])

/-! ## Theorems about the consensus evaluation -/

/-- C1 counterexample: two APPROVE votes for "r1" among 3 participants
meet the claimed quorum vote_count ≥ ⅔·total_participants (2 ≥ 2) with an
approve fraction above 0.5, yet check_consensus under MAJORITY still
returns ("VOTING", 2/3): the code's quorum threshold is
`len(votes) >= total_agents * 0.67`, which 2 of 3 does not reach. -/
theorem C1_two_thirds_counterexample :
    ((2 : ℚ) ≥ 2/3 * 3) ∧
      ((Consensus.init.register_vote "r1" "A" "APPROVE").register_vote "r1" "B" "APPROVE"
        |>.check_consensus "r1" 3).1 = ("VOTING", 2/3) ∧
      ((Consensus.init.register_vote "r1" "A" "APPROVE").register_vote "r1" "B" "APPROVE"
        |>.check_consensus "r1" 3).1.1 ≠ "APPROVED" := by
  refine ⟨by norm_num, ?_, ?_⟩
  · simp [Consensus.init, Consensus.register_vote, Consensus.check_consensus,
      alistLookup, alistInsert]
    norm_num
  · simp [Consensus.init, Consensus.register_vote, Consensus.check_consensus,
      alistLookup, alistInsert]
    norm_num
    decide

/-- C1 (amended): under the MAJORITY scheme, for a rule with at least one
registered vote, check_consensus returns VOTING with the participation
ratio while vote_count < 0.67·total_participants, and once
vote_count ≥ 0.67·total_participants it returns APPROVED when
approve_count / vote_count > 0.5 and REJECTED otherwise, together with
that approve ratio. -/
theorem C1_majority_check_consensus (c : Consensus) (rule_id : String)
    (total_agents : Nat) (votes : List (String × VoteRecord))
    (hty : c.consensus_type = "MAJORITY")
    (hv : alistLookup rule_id c.votes = some votes) (_hne : votes ≠ []) :
    ((votes.length : ℚ) < (total_agents : ℚ) * (67/100) →
        (c.check_consensus rule_id total_agents).1 =
          ("VOTING", (votes.length : ℚ) / (total_agents : ℚ))) ∧
    ((votes.length : ℚ) ≥ (total_agents : ℚ) * (67/100) →
        (c.check_consensus rule_id total_agents).1 =
          (if (approveCount votes : ℚ) / (votes.length : ℚ) > 1/2
             then "APPROVED" else "REJECTED",
           (approveCount votes : ℚ) / (votes.length : ℚ))) := by
  unfold Consensus.check_consensus
  rw [hv]
  dsimp only
  constructor
  · intro h
    rw [if_neg (by exact not_le.mpr h)]
  · intro h
    rw [if_pos h, if_pos hty]
    simp [Consensus.check_majority]

/-- C1 witness: the amended theorem applied to the spec's quorum example
(three registered votes, two of them APPROVE, three participants). -/
theorem C1_majority_check_consensus_witness :
    ((Consensus.init.register_vote "r1" "A" "APPROVE"
      |>.register_vote "r1" "B" "APPROVE"
      |>.register_vote "r1" "C" "REJECT").check_consensus "r1" 3).1 =
      ("APPROVED", 2/3) := by
  have h := C1_majority_check_consensus
    (Consensus.init.register_vote "r1" "A" "APPROVE"
      |>.register_vote "r1" "B" "APPROVE"
      |>.register_vote "r1" "C" "REJECT") "r1" 3
    [("A", ⟨"APPROVE", 50⟩), ("B", ⟨"APPROVE", 50⟩), ("C", ⟨"REJECT", 50⟩)]
    rfl rfl (by decide)
  have h₂ := h.2 (by simp only [List.length_cons, List.length_nil]; norm_num)
  rw [h₂]
  simp [approveCount]
  norm_num

/-- C3 counterexample: with zero registered votes for "r1" and
total_participants = 0 the claimed quorum (0 ≥ ⅔·0) is met, yet
check_consensus returns ("PENDING", 0), a pending status rather than the
claimed ("REJECTED", 0). -/
theorem C3_zero_votes_counterexample :
    (Consensus.init.check_consensus "r1" 0).1 = ("PENDING", 0) ∧
      (Consensus.init.check_consensus "r1" 0).1.1 ≠ "REJECTED" := by
  constructor
  · rfl
  · intro h
    simp [Consensus.init, Consensus.check_consensus, alistLookup] at h

/-- C3 (amended): when no votes are registered for a rule, check_consensus
returns PENDING with ratio 0 for every total_participants — the
unknown-rule guard fires before any quorum or tally computation, so the
call neither raises nor decides. -/
theorem C3_no_votes_pending (c : Consensus) (rule_id : String)
    (total_agents : Nat) (hv : alistLookup rule_id c.votes = none) :
    c.check_consensus rule_id total_agents = (("PENDING", 0), c) := by
  unfold Consensus.check_consensus
  rw [hv]

/-- C3 witness: the amended theorem applied to the freshly initialized
coordinator with total_participants = 0. -/
theorem C3_no_votes_pending_witness :
    Consensus.init.check_consensus "r1" 0 = (("PENDING", 0), Consensus.init) := by
  exact C3_no_votes_pending Consensus.init "r1" 0 rfl

/-- C7: under the WEIGHTED scheme at quorum with positive total weight,
check_consensus returns APPROVED exactly when the approve weight fraction
exceeds 0.5 and REJECTED otherwise, with that fraction as the ratio; in
particular the spec example {A: weight 90 APPROVE, B: weight 10 REJECT}
among 2 participants evaluates to ("APPROVED", 9/10). -/
theorem C7_weighted_check_consensus (c : Consensus) (rule_id : String)
    (total_agents : Nat) (votes : List (String × VoteRecord))
    (hty : c.consensus_type = "WEIGHTED")
    (hv : alistLookup rule_id c.votes = some votes)
    (hq : (votes.length : ℚ) ≥ (total_agents : ℚ) * (67/100))
    (hw : 0 < totalWeight votes) :
    ((c.check_consensus rule_id total_agents).1 =
      (if (approveWeight votes : ℚ) / (totalWeight votes : ℚ) > 1/2
         then "APPROVED" else "REJECTED",
       (approveWeight votes : ℚ) / (totalWeight votes : ℚ))) ∧
    (((Consensus.init "WEIGHTED").register_vote "r1" "A" "APPROVE" (some 90)
      |>.register_vote "r1" "B" "REJECT" (some 10)).check_consensus "r1" 2).1 =
      ("APPROVED", 9/10) := by
  constructor
  · unfold Consensus.check_consensus
    rw [hv]
    dsimp only
    rw [if_pos hq]
    rw [if_neg (by rw [hty]; decide), if_neg (by rw [hty]; decide), if_pos hty]
    simp [Consensus.check_weighted, hw]
  · simp [Consensus.init, Consensus.register_vote, Consensus.check_consensus,
      Consensus.check_weighted, totalWeight, approveWeight, alistLookup, alistInsert]
    norm_num

/-- C7 witness: the weighted theorem applied to the spec's 90/10 example. -/
theorem C7_weighted_check_consensus_witness :
    (((Consensus.init "WEIGHTED").register_vote "r1" "A" "APPROVE" (some 90)
      |>.register_vote "r1" "B" "REJECT" (some 10)).check_consensus "r1" 2).1 =
      ("APPROVED", 9/10) := by
  have h := C7_weighted_check_consensus
    ((Consensus.init "WEIGHTED").register_vote "r1" "A" "APPROVE" (some 90)
      |>.register_vote "r1" "B" "REJECT" (some 10)) "r1" 2
    [("A", ⟨"APPROVE", 90⟩), ("B", ⟨"REJECT", 10⟩)]
    rfl rfl (by norm_num) (by decide)
  exact h.2

/-! ## Theorems about agent reputation -/

theorem update_reputation_lookup (rep : List (String × Int)) (agent_id : String)
    (change : Int) :
    alistLookup agent_id (update_reputation rep agent_id change) =
      some (max 0 (min 100 (((alistLookup agent_id rep).getD 50) + change))) := by
  unfold update_reputation
  cases h : alistLookup agent_id rep with
  | none => simp [h, alistLookup_alistInsert_self]
  | some v => simp [h, alistLookup_alistInsert_self]

/-- A sequence of `update_reputation` calls for one agent, applied in
order. -/
def apply_reputation_deltas (rep : List (String × Int)) (agent_id : String)
    (deltas : List Int) : List (String × Int) :=
  deltas.foldl (fun r d => update_reputation r agent_id d) rep

/-- C5: starting from any reputation table (an absent agent defaults to
50), after any nonempty sequence of `update_reputation` calls with
arbitrary integer deltas the stored reputation of the agent exists and
lies within [0, 100]; since every prefix of a sequence is itself a
sequence, the bound holds after each call. -/
theorem C5_reputation_clamped (rep : List (String × Int)) (agent_id : String)
    (d : Int) (deltas : List Int) :
    ∃ v, alistLookup agent_id (apply_reputation_deltas rep agent_id (d :: deltas)) =
        some v ∧ 0 ≤ v ∧ v ≤ 100 := by
  induction deltas generalizing rep d with
  | nil =>
    refine ⟨max 0 (min 100 (((alistLookup agent_id rep).getD 50) + d)), ?_, ?_, ?_⟩
    · simpa [apply_reputation_deltas] using update_reputation_lookup rep agent_id d
    · exact le_max_left _ _
    · exact max_le (by norm_num) (min_le_left _ _)
  | cons d₁ tl ih =>
    simpa [apply_reputation_deltas] using ih (update_reputation rep agent_id d) d₁

/-! ## Theorems about agent-side vote handling -/

/-- An APPROVE vote by A for rule "r1". -/
def voteA : VoteMsg := { rule_id := "r1", vote := "APPROVE", voter := "A" }

/-- A REJECT vote by B for rule "r1". -/
def voteB : VoteMsg := { rule_id := "r1", vote := "REJECT", voter := "B" }

/-- Rule "r1" as freshly proposed. -/
def ruleProposed : AgentRule := { id := "r1", status := "PROPOSED", votes := none }

/-- Rule "r1" after A's approving vote has decided it. -/
def ruleApproved : AgentRule := { id := "r1", status := "APPROVED", votes := some [voteA] }

/-- Rule "r1" after B's rejecting vote has re-decided it. -/
def ruleRejected : AgentRule :=
  { id := "r1", status := "REJECTED", votes := some [voteA, voteB] }

/-- An agent with no known peers holding the freshly proposed rule. -/
def agent0 : AgentState :=
  { known_agents := [], proposed_rules := [("r1", ruleProposed)], rules := [] }

/-- The same agent after receiving A's vote. -/
def agent1 : AgentState :=
  { known_agents := [], proposed_rules := [("r1", ruleApproved)], rules := [ruleApproved] }

/-- The same agent after additionally receiving B's vote. -/
def agent2 : AgentState :=
  { known_agents := [], proposed_rules := [("r1", ruleRejected)], rules := [ruleApproved] }

/-- C2 counterexample: with no known agents and the rule "r1" in state
PROPOSED, an APPROVE vote sets the status to APPROVED, and a subsequently
received REJECT vote for the same rule changes the status again, to
REJECTED — the status does not transition exactly once out of PROPOSED. -/
theorem C2_status_flip_counterexample :
    (alistLookup "r1" (handle_vote agent0 voteA).proposed_rules).map AgentRule.status =
      some "APPROVED" ∧
    (alistLookup "r1" (handle_vote (handle_vote agent0 voteA) voteB).proposed_rules).map
      AgentRule.status = some "REJECTED" := by
  have s₁ : handle_vote agent0 voteA = agent1 := by
    simp [handle_vote, applyRuleDict, alistLookup, alistInsert, agent0, agent1,
      voteA, ruleProposed, ruleApproved]
    norm_num
  have s₂ : handle_vote agent1 voteB = agent2 := by
    simp [handle_vote, applyRuleDict, alistLookup, alistInsert, agent1, agent2,
      voteA, voteB, ruleApproved, ruleRejected]
  rw [s₁, s₂]
  constructor <;>
    simp [alistLookup, agent1, agent2, ruleApproved, ruleRejected]

/-- C2 (amended): a VOTE received for a known rule is always appended,
and once the accumulated votes reach half of the known participants the
rule's status is recomputed from the current tally (APPROVED when
approvals exceed half of the votes, REJECTED otherwise), regardless of
any previously decided status; below that threshold the status is left
unchanged. In particular a later vote can change an APPROVED status back
to REJECTED. -/
theorem C2_vote_recompute (a : AgentState) (v : VoteMsg) (rule : AgentRule)
    (hr : alistLookup v.rule_id a.proposed_rules = some rule) :
    (alistLookup v.rule_id (handle_vote a v).proposed_rules).map AgentRule.status =
      some (if ((rule.votes.getD [] ++ [v]).length : ℚ) ≥
                (a.known_agents.length : ℚ) / 2 then
              (if (((rule.votes.getD [] ++ [v]).filter
                      (fun w => w.vote = "APPROVE")).length : ℚ) >
                    ((rule.votes.getD [] ++ [v]).length : ℚ) / 2
               then "APPROVED" else "REJECTED")
            else rule.status) := by
  unfold handle_vote
  rw [hr]
  dsimp only
  split_ifs with h₁ h₂
  · simp [applyRuleDict, alistLookup_alistInsert_self]
  · simp [alistLookup_alistInsert_self]
  · simp [alistLookup_alistInsert_self]

/-- C2 witness: the recompute theorem applied to the flip scenario's first
vote, which decides APPROVED. -/
theorem C2_vote_recompute_witness :
    (alistLookup voteA.rule_id (handle_vote agent0 voteA).proposed_rules).map
      AgentRule.status = some "APPROVED" := by
  have h := C2_vote_recompute agent0 voteA ruleProposed (by rfl)
  rw [h]
  simp [ruleProposed, voteA, agent0]
  norm_num

/-! ## Theorems about the rule engine -/

/-- C4: apply_rule succeeds exactly when the rule is registered, its
status is APPROVED and its resolved action kind (defaulting to ALERT) is
in the dispatch table; the rules dict is never modified; every failure
leaves the engine unchanged; and success activates the rule until
now + duration (duration defaulting to 3600). -/
theorem C4_apply_rule_spec (e : RuleEngine) (now : ℚ) (rule_id : String)
    (target : Option String) :
    ((e.apply_rule now rule_id target).1 = true ↔
      ∃ rule, alistLookup rule_id e.rules = some rule ∧
        rule.status = some "APPROVED" ∧
        rule.data.action.getD "ALERT" ∈ supportedActions) ∧
    (e.apply_rule now rule_id target).2.rules = e.rules ∧
    ((e.apply_rule now rule_id target).1 = false →
      (e.apply_rule now rule_id target).2 = e) ∧
    (∀ rule, alistLookup rule_id e.rules = some rule →
      (e.apply_rule now rule_id target).1 = true →
      (e.apply_rule now rule_id target).2.active_rules =
        alistInsert rule_id (now + rule.data.duration.getD 3600) e.active_rules) := by
  unfold RuleEngine.apply_rule
  cases h : alistLookup rule_id e.rules with
  | none => simp [h]
  | some rule =>
    dsimp only
    split_ifs with h₁ h₂
    · simp [h, h₁]
    · push_neg at h₁
      simp [h, h₁, h₂]
    · push_neg at h₁
      simp [h, h₁, h₂]

/-- A rule that was rejected by consensus, registered with the engine. -/
def ruleRejectedEngine : EngineRule :=
  { id := "r1", status := some "REJECTED",
    data := { target := some "host-1", action := some "BLOCK", duration := none } }

/-- An engine holding only the rejected rule. -/
def engineWithRejected : RuleEngine := RuleEngine.init.register_rule ruleRejectedEngine

/-- C4 witness: applying the rejected rule fails and leaves the engine
unchanged, by the spec theorem at this concrete engine. -/
theorem C4_apply_rule_spec_witness :
    (engineWithRejected.apply_rule 0 "r1" none).1 = false ∧
    (engineWithRejected.apply_rule 0 "r1" none).2 = engineWithRejected := by
  have h := C4_apply_rule_spec engineWithRejected 0 "r1" none
  have hf : (engineWithRejected.apply_rule 0 "r1" none).1 = false := by rfl
  exact ⟨hf, h.2.2.1 hf⟩

/-- C10: a registered APPROVED rule whose data has no "action" key is
treated as ALERT: apply_rule succeeds and activates the rule until
now + duration (default 3600). -/
theorem C10_missing_action_is_alert (e : RuleEngine) (now : ℚ)
    (rule_id : String) (target : Option String) (rule : EngineRule)
    (hr : alistLookup rule_id e.rules = some rule)
    (hs : rule.status = some "APPROVED") (ha : rule.data.action = none) :
    (e.apply_rule now rule_id target).1 = true ∧
    (e.apply_rule now rule_id target).2.active_rules =
      alistInsert rule_id (now + rule.data.duration.getD 3600) e.active_rules := by
  unfold RuleEngine.apply_rule
  rw [hr]
  dsimp only
  rw [if_neg (by simp [hs]), ha]
  simp [supportedActions]

/-- An approved rule whose data carries no action key. -/
def ruleNoAction : EngineRule :=
  { id := "r2", status := some "APPROVED",
    data := { target := some "host-2", action := none, duration := none } }

/-- An engine holding only the approved action-less rule. -/
def engineNoAction : RuleEngine := RuleEngine.init.register_rule ruleNoAction

/-- C10 witness: the missing-action theorem at the concrete engine; the
rule is applied and becomes active until 0 + 3600. -/
theorem C10_missing_action_is_alert_witness :
    (engineNoAction.apply_rule 0 "r2" none).1 = true ∧
    (engineNoAction.apply_rule 0 "r2" none).2.active_rules = [("r2", (0:ℚ) + 3600)] := by
  have h := C10_missing_action_is_alert engineNoAction 0 "r2" none ruleNoAction rfl rfl rfl
  exact ⟨h.1, by rw [h.2]; rfl⟩

/-- An approved one-time-unit BLOCK rule for the expiry scenario. -/
def ruleDur1 : EngineRule :=
  { id := "r3", status := some "APPROVED",
    data := { target := some "host-3", action := some "BLOCK", duration := some 1 } }

/-- C8: check_rule_applicability first drops exactly the active entries
whose expiration instant has passed, and returns exactly the rules of the
surviving entries whose data target equals the given target; in the
concrete expiry scenario, a rule applied at time 0 with duration 1 is
absent from the results at time 2. -/
theorem C8_check_rule_applicability_spec (e : RuleEngine) (now : ℚ)
    (event : String) (target : Option String) :
    (∀ id exp, (id, exp) ∈ (e.check_rule_applicability now event target).2.active_rules ↔
        ((id, exp) ∈ e.active_rules ∧ ¬ exp < now)) ∧
    (∀ rule, rule ∈ (e.check_rule_applicability now event target).1 ↔
        ∃ id exp, (id, exp) ∈ e.active_rules ∧ ¬ exp < now ∧
          alistLookup id e.rules = some rule ∧ rule.data.target = target) ∧
    (((RuleEngine.init.register_rule ruleDur1).apply_rule 0 "r3" none).2.check_rule_applicability
        2 "intrusion" (some "host-3")).1 = [] := by
  refine ⟨?_, ?_, ?_⟩
  · intro id exp
    simp [RuleEngine.check_rule_applicability, RuleEngine.cleanup_expired_rules,
      List.mem_filter]
  · intro rule
    simp only [RuleEngine.check_rule_applicability, RuleEngine.cleanup_expired_rules,
      List.mem_filterMap, List.mem_filter]
    constructor
    · rintro ⟨p, ⟨hpl, hpk⟩, hf⟩
      cases hlk : alistLookup p.1 e.rules with
      | none => rw [hlk] at hf; simp at hf
      | some r =>
        rw [hlk] at hf
        dsimp only at hf
        by_cases ht : r.data.target = target
        · rw [if_pos ht] at hf
          cases hf
          exact ⟨p.1, p.2, hpl, by simpa using hpk, hlk, ht⟩
        · rw [if_neg ht] at hf
          cases hf
    · rintro ⟨id, exp, hmem, hexp, hlk, ht⟩
      refine ⟨(id, exp), ⟨hmem, by simpa using hexp⟩, ?_⟩
      rw [hlk]
      dsimp only
      rw [if_pos ht]
  · have happ : ((RuleEngine.init.register_rule ruleDur1).apply_rule 0 "r3" none).2 =
        { rules := [("r3", ruleDur1)], active_rules := [("r3", (0:ℚ) + 1)] } := by
      simp [RuleEngine.init, RuleEngine.register_rule, RuleEngine.apply_rule,
        ruleDur1, supportedActions, alistLookup, alistInsert]
    rw [happ]
    simp [RuleEngine.check_rule_applicability, RuleEngine.cleanup_expired_rules,
      alistLookup]

/-! ## Theorems about gossip dissemination -/

/-- C6: process_remote_message is idempotent per message id: a delivery
whose id is already cached returns the state unchanged (cache, statistics
and all) with no fan-out, and two consecutive deliveries of the same
message id fan out at most once — the second never does. -/
theorem C6_process_remote_idempotent (g : GossipProtocol) (now : ℚ) (m : GMessage) :
    ((alistLookup m.message_id g.message_cache).isSome →
      g.process_remote_message now m = (g, [])) ∧
    (∀ now₂ m₂, m₂.message_id = m.message_id →
      ((g.process_remote_message now m).1.process_remote_message now₂ m₂).2 = []) := by
  constructor
  · intro h
    unfold GossipProtocol.process_remote_message
    rw [if_pos h]
  · intro now₂ m₂ hid
    by_cases h : (alistLookup m.message_id g.message_cache).isSome = true
    · have e₁ : g.process_remote_message now m = (g, []) := by
        unfold GossipProtocol.process_remote_message
        rw [if_pos h]
      rw [e₁]
      unfold GossipProtocol.process_remote_message
      rw [if_pos (by rw [hid]; exact h)]
    · have e₁ : (g.process_remote_message now m).1 =
          { g with
            message_cache := alistInsert m.message_id (m, now) g.message_cache,
            messages_received := g.messages_received + 1 } := by
        unfold GossipProtocol.process_remote_message
        rw [if_neg h]
      rw [e₁]
      unfold GossipProtocol.process_remote_message
      rw [if_pos (by rw [hid]; simp [alistLookup_alistInsert_self])]

/-- A remote message used in the gossip witnesses. -/
def msgM : GMessage := { sender_id := "a1", msg_type := "THREAT", message_id := "a1-100" }

/-- A gossip state with two agents that has already cached msgM's id. -/
def gossipCached : GossipProtocol :=
  { agents := ["a1", "a2"], message_cache := [("a1-100", msgM, 100)],
    messages_sent := 0, messages_received := 0, delivery_failures := 0 }

/-- C6 witness: redelivering the already-cached message changes nothing
and fans out to nobody, by the idempotence theorem at this state. -/
theorem C6_process_remote_idempotent_witness :
    gossipCached.process_remote_message 101 msgM = (gossipCached, []) :=
  (C6_process_remote_idempotent gossipCached 101 msgM).1 (by rfl)

/-- C9: send_message to an unregistered recipient returns False, fans out
to nobody and does not count a send, yet it has already cached the
message id, so any later process_remote_message carrying the same id is
suppressed as a duplicate: no fan-out ever happens for it. -/
theorem C9_send_unknown_recipient_poisons_cache (g : GossipProtocol) (now : ℚ)
    (m : GMessage) (recipient_id : String) (delivered : Bool)
    (h : recipient_id ∉ g.agents) :
    (g.send_message now m recipient_id delivered).1 = false ∧
    (g.send_message now m recipient_id delivered).2.2 = [] ∧
    (g.send_message now m recipient_id delivered).2.1.messages_sent = g.messages_sent ∧
    (g.send_message now m recipient_id delivered).2.1.message_cache =
      alistInsert m.message_id (m, now) g.message_cache ∧
    (∀ now₂ m₂, m₂.message_id = m.message_id →
      (g.send_message now m recipient_id delivered).2.1.process_remote_message now₂ m₂ =
        ((g.send_message now m recipient_id delivered).2.1, [])) := by
  have e₁ : g.send_message now m recipient_id delivered =
      (false,
       { g with message_cache := alistInsert m.message_id (m, now) g.message_cache },
       []) := by
    unfold GossipProtocol.send_message
    rw [if_pos h]
  rw [e₁]
  refine ⟨rfl, rfl, rfl, rfl, ?_⟩
  intro now₂ m₂ hid
  unfold GossipProtocol.process_remote_message
  rw [if_pos (by rw [hid]; simp [alistLookup_alistInsert_self])]

/-- An empty gossip state with no registered agents. -/
def gossipEmpty : GossipProtocol :=
  { agents := [], message_cache := [], messages_sent := 0, messages_received := 0,
    delivery_failures := 0 }

/-- C9 witness: sending msgM to an unregistered recipient fails but
caches its id, and the subsequent remote delivery of msgM is suppressed,
by the theorem at this concrete state. -/
theorem C9_send_unknown_recipient_poisons_cache_witness :
    (gossipEmpty.send_message 100 msgM "bogus" true).1 = false ∧
    ((gossipEmpty.send_message 100 msgM "bogus" true).2.1.process_remote_message
        101 msgM).2 = [] := by
  have h := C9_send_unknown_recipient_poisons_cache gossipEmpty 100 msgM "bogus" true
    (by simp [gossipEmpty])
  exact ⟨h.1, by rw [(h.2.2.2.2 101 msgM rfl)]⟩

end DSP
